import Mathlib

/-!
# Verification of the winlog-mcp validation and classification core

Shallow embedding of the security-critical modules of the repository:
`src/security/channel-guard.ts`, `src/security/xpath-validator.ts` and the
classification / scan logic of `src/eventlog/powershell-reader.ts`, together
with proofs of the specified properties.

Strings are modelled as `List Char` (JavaScript strings are sequences of
code units; all inputs of interest here are plain character sequences).
JavaScript regular expressions that appear in the sources are modelled by
decidable scanning functions that implement exactly the shapes occurring in
the source patterns (word boundary, `\s*`, case-insensitive literals,
character classes).
-/

deriving instance DecidableEq for Except

namespace Winlog

/-! ## JavaScript string primitives -/

/-- The JavaScript whitespace set (`\s` and `String.prototype.trim`):
space, tab, LF, VT, FF, CR, NBSP, plus the Unicode space separators,
line/paragraph separators and BOM. -/
def isJsSpace (c : Char) : Bool :=
  c = ' ' || c = '\t' || c = '\n' || c = '\r' ||
  c.toNat = 11 || c.toNat = 12 ||
  c.toNat = 0xa0 || c.toNat = 0x1680 ||
  (0x2000 ≤ c.toNat && c.toNat ≤ 0x200a) ||
  c.toNat = 0x2028 || c.toNat = 0x2029 ||
  c.toNat = 0x202f || c.toNat = 0x205f || c.toNat = 0x3000 || c.toNat = 0xfeff

/-- The JavaScript `\w` word-character class: `[A-Za-z0-9_]`. -/
def isWordChar (c : Char) : Bool :=
  c.isAlpha || c.isDigit || c = '_'

/-- Model of `String.prototype.trim`: drop leading and trailing JS whitespace. -/
def jsTrim (l : List Char) : List Char :=
  ((l.dropWhile isJsSpace).reverse.dropWhile isJsSpace).reverse

/-- ASCII lowercasing, the case folding used by the `/i` regex flag and
`String.prototype.toLowerCase` on the ASCII pattern letters that occur in
the sources. -/
def lowerChar (c : Char) : Char := c.toLower

/-! ## `src/types.ts` -/

/-- Allowed event log channels (`ALLOWED_CHANNELS` in `types.ts`). -/
def ALLOWED_CHANNELS : List String := ["System", "Application"]

/-- Configuration limits (`Config` in `types.ts`). -/
structure Config where
  maxEventsPerQuery : Int
  maxTimeRangeHours : Int
  queryTimeoutMs : Int
  xpathMaxLength : Nat
deriving DecidableEq

/-- Default configuration `DEFAULT_CONFIG` in `types.ts`. -/
def DEFAULT_CONFIG : Config :=
  { maxEventsPerQuery := 1000
    maxTimeRangeHours := 168
    queryTimeoutMs := 30000
    xpathMaxLength := 500 }

/-- Severity levels of an event record (`EventLevel` in `types.ts`). -/
inductive EventLevel where
  | Critical | Error | Warning | Information | Verbose
deriving DecidableEq

/-- Normalized event record (`EventRecord` in `types.ts`). -/
structure EventRecord where
  recordId : Int
  eventId : Int
  level : EventLevel
  timeCreated : String
  provider : String
  message : String
  computer : String
  channel : String
  userId : Option String := none
  task : Option Int := none
  opcode : Option Int := none
  keywords : Option String := none
deriving DecidableEq

/-! ## JavaScript values

Both validators take an `unknown` input.  We model the distinctions the
code makes: a string, `null`, `undefined`, or any other value (for which
only its `String(v)` rendering is ever observed). -/

inductive JsValue where
  /-- a JavaScript string -/
  | strV (s : String)
  /-- JavaScript null -/
  | nullV
  /-- JavaScript undefined -/
  | undefV
  /-- any non-string, non-null, non-undefined value; the argument is its
  `String(v)` rendering -/
  | otherV (repr : String)
deriving DecidableEq

/-! ## `src/security/channel-guard.ts` -/

/-- Error `ChannelNotAllowedError`, carrying the (stringified) offending channel. -/
inductive ChannelError where
  | notAllowed (channel : String)
deriving DecidableEq

/-- Function `validateChannel` from `channel-guard.ts`: reject non-strings
(stringified), reject the empty string (as `"(empty)"`), reject anything
not byte-exactly in `ALLOWED_CHANNELS`, otherwise return the input
unchanged. -/
def validateChannel : JsValue → Except ChannelError String
  | .nullV => .error (.notAllowed "null")
  | .undefV => .error (.notAllowed "undefined")
  | .otherV r => .error (.notAllowed r)
  | .strV s =>
    if s.length = 0 then .error (.notAllowed "(empty)")
    else if s ∈ ALLOWED_CHANNELS then .ok s
    else .error (.notAllowed s)

/-- C2: `validateChannel` succeeds exactly on the two allowed names,
byte-exactly, and returns the input unchanged (no sanitization). -/
theorem validateChannel_exact_allowlist (v : JsValue) (ch : String) :
    validateChannel v = .ok ch ↔
      v = .strV ch ∧ (ch = "System" ∨ ch = "Application") := by
  cases v with
  | nullV => simp [validateChannel]
  | undefV => simp [validateChannel]
  | otherV r => simp [validateChannel]
  | strV s =>
    simp only [validateChannel, ALLOWED_CHANNELS]
    by_cases h0 : s.length = 0
    · rw [if_pos h0]
      constructor
      · intro h; cases h
      · rintro ⟨hv, hch⟩
        injection hv with hv
        subst hv
        rcases hch with h | h <;> subst h <;> exact absurd h0 (by decide)
    · rw [if_neg h0]
      by_cases hmem : s ∈ (["System", "Application"] : List String)
      · rw [if_pos hmem]
        simp only [List.mem_cons, List.mem_singleton, List.not_mem_nil,
          or_false] at hmem
        constructor
        · intro h
          injection h with h
          subst h
          exact ⟨rfl, hmem⟩
        · rintro ⟨hv, _⟩
          injection hv with hv
          subst hv
          rfl
      · rw [if_neg hmem]
        constructor
        · intro h; cases h
        · rintro ⟨hv, hch⟩
          injection hv with hv
          subst hv
          exact absurd (by simpa using hch) hmem

/-! ## `src/security/xpath-validator.ts`

Each entry of `BLOCKED_PATTERNS` is one of a handful of regex shapes; we
implement each shape as a decidable scanner:

* `/\bNAME\s*\(/i` — a word boundary, the literal name (case-insensitive),
  optional whitespace, an opening parenthesis;
* `/\bNAME\s*::/i` — same with a double colon;
* `/\$\w+/` — a dollar sign followed by at least one word character;
* plain substrings `..`, `--`, `/*`;
* `/['"]\s*\]\s*\[/` — a quote, optional whitespace, `]`, optional
  whitespace, `[`.
-/

/-- Case-insensitive (ASCII) literal match at the head of the list:
returns the remainder after the literal when it matches. -/
def stripCI : List Char → List Char → Option (List Char)
  | [], l => some l
  | _ :: _, [] => none
  | p :: ps, c :: cs => if lowerChar c = lowerChar p then stripCI ps cs else none

/-- After the literal of a `\bNAME\s*(`-shaped pattern: skip `\s*`, then
require the given terminator characters. -/
def afterSpacesIs (term : List Char) (l : List Char) : Bool :=
  (stripCI term (l.dropWhile isJsSpace)).isSome

/-- Does a `\bNAME\s*TERM`-shaped pattern match at the head of `l`? -/
def funcAt (name term : List Char) (l : List Char) : Bool :=
  match stripCI name l with
  | some rest => afterSpacesIs term rest
  | none => false

/-- Scan all positions of `l`, tracking whether the previous character is a
word character: `\b` before a word-initial literal holds exactly when the
previous character is absent or not a word character. -/
def scanWB (patAt : List Char → Bool) : Bool → List Char → Bool
  | _, [] => false
  | prevWord, c :: rest =>
    (!prevWord && patAt (c :: rest)) || scanWB patAt (isWordChar c) rest

/-- Pattern `/\bNAME\s*TERM/i` applied anywhere in the string. -/
def wbPat (name term : String) (l : List Char) : Bool :=
  scanWB (funcAt name.data term.data) false l

/-- Does `p` hold of some (not necessarily proper) suffix of `l`?  This is
regex search: try a match at every position. -/
def anySuffix (p : List Char → Bool) : List Char → Bool
  | [] => p []
  | c :: rest => p (c :: rest) || anySuffix p rest

/-- Pattern `/\$\w+/`: a dollar sign followed by a word character. -/
def varRefPat (l : List Char) : Bool :=
  anySuffix (fun l => match l with
    | '$' :: c :: _ => isWordChar c
    | _ => false) l

/-- A case-sensitive plain substring pattern (`\.\.`, `--`, `\/\*`). -/
def substrPat (s : String) (l : List Char) : Bool :=
  anySuffix (fun l => (stripCI s.data l).isSome) l

/-- Pattern `/['"]\s*\]\s*\[/`: quote, `\s*`, `]`, `\s*`, `[`. -/
def quoteInjPat (l : List Char) : Bool :=
  anySuffix (fun l =>
    match l with
    | q :: rest =>
      (q.toNat = 39 || q = '"') &&
      (match rest.dropWhile isJsSpace with
       | ']' :: rest2 =>
         (match rest2.dropWhile isJsSpace with
          | '[' :: _ => true
          | _ => false)
       | _ => false)
    | [] => false) l

/-- Blocklist `BLOCKED_PATTERNS` from `xpath-validator.ts`, in declaration order.
Each entry is the regex source text (as reported in the violation message)
paired with its matcher. -/
def BLOCKED_PATTERNS : List (String × (List Char → Bool)) :=
  [ ("\\bdocument\\s*\\(", wbPat "document" "("),
    ("\\bdoc\\s*\\(", wbPat "doc" "("),
    ("\\bconcat\\s*\\(", wbPat "concat" "("),
    ("\\bstring\\s*\\(", wbPat "string" "("),
    ("\\bsubstring\\s*\\(", wbPat "substring" "("),
    ("\\btranslate\\s*\\(", wbPat "translate" "("),
    ("\\bnormalize-space\\s*\\(", wbPat "normalize-space" "("),
    ("\\bcontains\\s*\\(", wbPat "contains" "("),
    ("\\bstarts-with\\s*\\(", wbPat "starts-with" "("),
    ("\\bstring-length\\s*\\(", wbPat "string-length" "("),
    ("\\bcount\\s*\\(", wbPat "count" "("),
    ("\\bsum\\s*\\(", wbPat "sum" "("),
    ("\\bfloor\\s*\\(", wbPat "floor" "("),
    ("\\bceiling\\s*\\(", wbPat "ceiling" "("),
    ("\\bround\\s*\\(", wbPat "round" "("),
    ("\\btrue\\s*\\(", wbPat "true" "("),
    ("\\bfalse\\s*\\(", wbPat "false" "("),
    ("\\bnot\\s*\\(", wbPat "not" "("),
    ("\\bboolean\\s*\\(", wbPat "boolean" "("),
    ("\\bnumber\\s*\\(", wbPat "number" "("),
    ("\\bid\\s*\\(", wbPat "id" "("),
    ("\\bname\\s*\\(", wbPat "name" "("),
    ("\\blocal-name\\s*\\(", wbPat "local-name" "("),
    ("\\bnamespace-uri\\s*\\(", wbPat "namespace-uri" "("),
    ("\\$\\w+", varRefPat),
    ("\\bnamespace\\s*::", wbPat "namespace" "::"),
    ("\\bpreceding\\s*::", wbPat "preceding" "::"),
    ("\\bfollowing\\s*::", wbPat "following" "::"),
    ("\\bpreceding-sibling\\s*::", wbPat "preceding-sibling" "::"),
    ("\\bfollowing-sibling\\s*::", wbPat "following-sibling" "::"),
    ("\\bancestor\\s*::", wbPat "ancestor" "::"),
    ("\\bdescendant\\s*::", wbPat "descendant" "::"),
    ("\\bancestor-or-self\\s*::", wbPat "ancestor-or-self" "::"),
    ("\\bdescendant-or-self\\s*::", wbPat "descendant-or-self" "::"),
    ("\\.\\.", substrPat ".."),
    ("\\bcomment\\s*\\(", wbPat "comment" "("),
    ("\\bprocessing-instruction\\s*\\(", wbPat "processing-instruction" "("),
    ("\\btext\\s*\\(", wbPat "text" "("),
    ("\\bnode\\s*\\(", wbPat "node" "("),
    ("['\"]\\s*\\]\\s*\\[", quoteInjPat),
    ("--", substrPat "--"),
    ("\\/\\*", substrPat "/*") ]

/-- The violation messages collected by `validateXPath`: one
`Blocked pattern: SOURCE` entry per matching blocked pattern, in
declaration order. -/
def blockedViolations (t : List Char) : List String :=
  BLOCKED_PATTERNS.filterMap fun p =>
    if p.2 t then some ("Blocked pattern: " ++ p.1) else none

/-- The `ALLOWED_STRUCTURE` character class
`[\s\*\[\]\/\(\)@\w\-\.=<>!'":\d\s,]`. -/
def isAllowedChar (c : Char) : Bool :=
  isJsSpace c || c = '*' || c = '[' || c = ']' || c = '/' || c = '(' ||
  c = ')' || c = '@' || isWordChar c || c = '-' || c = '.' || c = '=' ||
  c = '<' || c = '>' || c = '!' || c.toNat = 39 || c = '"' || c = ':' ||
  c.isDigit || c = ','

/-- Whitelist test `ALLOWED_STRUCTURE.test(trimmed)`: the whole (nonempty) string consists
of allowed characters. -/
def allowedStructure (t : List Char) : Bool :=
  !t.isEmpty && t.all isAllowedChar

/-- State of the bracket-balance scan: current depth, maximum depth seen,
and whether the depth ever went negative. -/
structure ScanState where
  depth : Int
  maxSeen : Int
  neg : Bool
deriving DecidableEq

/-- One step of the bracket scan: `[` increments the depth (recording the
maximum), `]` decrements it; the `neg` flag records a depth below zero. -/
def scanStep (st : ScanState) (c : Char) : ScanState :=
  if c = '[' then
    ⟨st.depth + 1, max st.maxSeen (st.depth + 1), st.neg⟩
  else if c = ']' then
    ⟨st.depth - 1, st.maxSeen, st.neg || decide (st.depth - 1 < 0)⟩
  else st

/-- The full bracket scan of `validateXPath`. -/
def bracketScan (t : List Char) : ScanState :=
  t.foldl scanStep ⟨0, 0, false⟩

/-- Number of `[` characters (the predicate count `trimmed.match(/\[/g)`). -/
def predicateCount (t : List Char) : Nat :=
  t.count '['

/-- The two error classes of `xpath-validator.ts`:
`XPathValidationError` (message and details) and `XPathComplexityError`. -/
inductive XPathError where
  | validation (message : String) (details : List String)
  | complexity (message : String)
deriving DecidableEq

/-- Body of `validateXPath` on a string input: trim; empty means "no filter";
enforce the length limit; collect blocked-pattern violations; enforce the
character whitelist; run the bracket scan (rejecting a negative or nonzero
final depth, and a nesting depth over 5); reject more than 10 predicates;
otherwise return the trimmed string unchanged. -/
def validateXPathStr (s : String) (config : Config) :
    Except XPathError (Option String) :=
  let t := jsTrim s.data
  if t.length = 0 then .ok none
  else if config.xpathMaxLength < t.length then
    .error (.complexity ("XPath exceeds maximum length of " ++
      toString config.xpathMaxLength ++ " characters"))
  else
    let violations := blockedViolations t
    if 0 < violations.length then
      .error (.validation "XPath contains blocked constructs" violations)
    else if !allowedStructure t then
      .error (.validation "XPath contains disallowed characters" [])
    else
      let st := bracketScan t
      if st.neg then .error (.validation "Unbalanced brackets in XPath" [])
      else if st.depth ≠ 0 then
        .error (.validation "Unbalanced brackets in XPath" [])
      else if 5 < st.maxSeen then
        .error (.complexity "XPath exceeds maximum nesting depth of 5")
      else if 10 < predicateCount t then
        .error (.complexity "XPath exceeds maximum predicate count of 10")
      else .ok (some (String.mk t))

/-- Function `validateXPath` from `xpath-validator.ts` on an arbitrary value:
`null`/`undefined` mean "no filter"; non-strings are rejected; strings go
through `validateXPathStr`. -/
def validateXPath (x : JsValue) (config : Config) :
    Except XPathError (Option String) :=
  match x with
  | .nullV => .ok none
  | .undefV => .ok none
  | .otherV _ => .error (.validation "XPath must be a string" [])
  | .strV s => validateXPathStr s config

/-- The anchored timestamp shape test of `buildTimeRangeXPath`:
`/^\d{4}-\d{2}-\d{2}T\d{2}:\d{2}:\d{2}/`. -/
def isoShape : List Char → Bool
  | a :: b :: c :: d :: '-' :: e :: f :: '-' :: g :: h :: 'T' ::
    i :: j :: ':' :: k :: l :: ':' :: m :: n :: _ =>
    a.isDigit && b.isDigit && c.isDigit && d.isDigit && e.isDigit &&
    f.isDigit && g.isDigit && h.isDigit && i.isDigit && j.isDigit &&
    k.isDigit && l.isDigit && m.isDigit && n.isDigit
  | _ => false

/-- Function `buildTimeRangeXPath` from `xpath-validator.ts`.  JavaScript truthiness:
an absent or empty `startTime`/`endTime` contributes no condition; a
present nonempty one must pass the `isoShape` test or the function throws
`XPathValidationError`. -/
def buildTimeRangeXPath (startTime endTime : Option String) :
    Except XPathError (Option String) :=
  let startConds : Except XPathError (List String) :=
    match startTime with
    | some s =>
      if s = "" then .ok []
      else if isoShape s.data then
        .ok ["TimeCreated[@SystemTime>='" ++ s ++ "']"]
      else .error (.validation "Invalid startTime format, expected ISO 8601" [])
    | none => .ok []
  match startConds with
  | .error e => .error e
  | .ok conds1 =>
    let endConds : Except XPathError (List String) :=
      match endTime with
      | some s =>
        if s = "" then .ok []
        else if isoShape s.data then
          .ok ["TimeCreated[@SystemTime<='" ++ s ++ "']"]
        else .error (.validation "Invalid endTime format, expected ISO 8601" [])
      | none => .ok []
    match endConds with
    | .error e => .error e
    | .ok conds2 =>
      match conds1 ++ conds2 with
      | [] => .ok none
      | conds =>
        .ok (some ("*[System[" ++ String.intercalate " and " conds ++ "]]"))

/-- Function `combineXPathFilters` from `xpath-validator.ts`: keep the defined,
nonempty filters; none → no filter; one → that filter; several → the first
(the source returns `validFilters[0]` in both of the last two cases). -/
def combineXPathFilters (filters : List (Option String)) : Option String :=
  let validFilters := filters.filterMap fun f =>
    match f with
    | some s => if s.length > 0 then some s else none
    | none => none
  match validFilters with
  | [] => none
  | [x] => some x
  | x :: _ :: _ => some x

/-! ## `src/eventlog/powershell-reader.ts` -/

/-- The clamp of `options.maxEvents` in `queryEvents`
(`Math.min(Math.max(1, options.maxEvents ?? 100), config.maxEventsPerQuery)`). -/
def clampMaxEvents (requested : Option Int) (config : Config) : Int :=
  min (max 1 (requested.getD 100)) config.maxEventsPerQuery

/-- The clamp of `options.hours` in `findCrashSignals`
(`Math.min(Math.max(1, options.hours ?? 24), config.maxTimeRangeHours)`). -/
def clampHours (requested : Option Int) (config : Config) : Int :=
  min (max 1 (requested.getD 24)) config.maxTimeRangeHours

/-- The start instant of the scan window prepared by `findCrashSignals`,
in milliseconds since the epoch:
`new Date(Date.now() - hours * 60 * 60 * 1000)`.  `nowMs` is the value the
ambient `Date.now()` call returns during the run. -/
def scanPreparedStart (nowMs : Int) (requestedHours : Option Int)
    (config : Config) : Int :=
  nowMs - clampHours requestedHours config * 3600000

/-- Crash classification names (`CrashSignal['crashType']` in `types.ts`). -/
inductive CrashType where
  | ApplicationCrash | ApplicationHang | SystemCrash | ServiceFailure | WHEA
deriving DecidableEq

/-- Crash severity (`CrashSignal['severity']` in `types.ts`). -/
inductive Severity where
  | Critical | High | Medium
deriving DecidableEq

/-- One entry of the crash-pattern table: provider substrings and event
ids. -/
structure CrashPattern where
  crashType : CrashType
  providers : List String
  eventIds : List Int
deriving DecidableEq

/-- Table `CRASH_PATTERNS` from `powershell-reader.ts`, in declaration order
(object-literal insertion order, the order `Object.entries` iterates). -/
def CRASH_PATTERNS : List CrashPattern :=
  [ ⟨.ApplicationCrash, ["Application Error", "Windows Error Reporting"], [1000, 1001]⟩,
    ⟨.ApplicationHang, ["Application Hang"], [1002]⟩,
    ⟨.SystemCrash, ["Microsoft-Windows-WER-SystemErrorReporting", "BugCheck"], [1001, 1]⟩,
    ⟨.ServiceFailure, ["Service Control Manager"], [7031, 7034, 7024]⟩,
    ⟨.WHEA, ["Microsoft-Windows-WHEA-Logger"], [17, 18, 19, 47]⟩ ]

/-- ASCII `String.prototype.toLowerCase` over a character list. -/
def lowerList (l : List Char) : List Char := l.map lowerChar

/-- JavaScript `hay.includes(needle)`: `needle` occurs contiguously in
`hay`. -/
def listIncludes (needle hay : List Char) : Bool :=
  anySuffix (fun l => (stripCI needle l).isSome) hay

/-- The per-pattern match test of `findCrashSignals`: the provider
case-insensitively contains one of the pattern's provider substrings, or
the event id equals one of the pattern's event ids. -/
def patMatches (r : EventRecord) (p : CrashPattern) : Bool :=
  p.providers.any (fun pv => listIncludes (lowerList pv.data) (lowerList r.provider.data)) ||
  p.eventIds.contains r.eventId

/-- The severity assignment of `findCrashSignals`: default `Medium`,
`Critical` for `SystemCrash`/`WHEA`, `High` for
`ApplicationCrash`/`ServiceFailure`. -/
def assignSeverity (ct : CrashType) : Severity :=
  if ct = .SystemCrash || ct = .WHEA then .Critical
  else if ct = .ApplicationCrash || ct = .ServiceFailure then .High
  else .Medium

/-- The capture class `[^\r\n,]` of the faulting-name extraction regexes. -/
def isCaptureChar (c : Char) : Bool :=
  !(c = '\r' || c = '\n' || c = ',')

/-- Backtracking tail of `\s*([^\r\n,]+)`: try the capture start at offset
`i` (the greedy end of `\s*`), retreating one consumed space at a time. -/
def captureFrom : Nat → List Char → Option (List Char)
  | i, rest =>
    match rest.drop i with
    | c :: cs =>
      if isCaptureChar c then some ((c :: cs).takeWhile isCaptureChar)
      else match i with
        | 0 => none
        | i' + 1 => captureFrom i' rest
    | [] =>
      match i with
      | 0 => none
      | i' + 1 => captureFrom i' rest

/-- Match `\s*([^\r\n,]+)` at the head of `rest` with the greedy,
backtracking semantics of the regex engine; returns the capture. -/
def captureAfter (rest : List Char) : Option (List Char) :=
  captureFrom (rest.takeWhile isJsSpace).length rest

/-- Leftmost search for `/LIT\s*([^\r\n,]+)/i`: at each position try the
case-insensitive literal and then the capture; on failure move one
character right. -/
def searchCapture (lit : List Char) : List Char → Option (List Char)
  | [] => none
  | c :: cs =>
    match stripCI lit (c :: cs) with
    | some rest =>
      match captureAfter rest with
      | some cap => some cap
      | none => searchCapture lit cs
    | none => searchCapture lit cs

/-- The `Faulting application name:` and `Faulting module name:` extraction:
the captured group, trimmed (`appMatch[1].trim()`); `none` when the regex
does not match. -/
def extractField (lit : String) (message : String) : Option String :=
  (searchCapture lit.data message.data).map fun cap => String.mk (jsTrim cap)

/-- The signal record built by `findCrashSignals` for a matched pattern. -/
structure CrashSignal where
  event : EventRecord
  crashType : CrashType
  severity : Severity
  faultingApplication : Option String
  faultingModule : Option String
deriving DecidableEq

/-- The signal constructed for record `r` matched by pattern `p`. -/
def mkSignal (r : EventRecord) (p : CrashPattern) : CrashSignal :=
  { event := r
    crashType := p.crashType
    severity := assignSeverity p.crashType
    faultingApplication := extractField "Faulting application name:" r.message
    faultingModule := extractField "Faulting module name:" r.message }

/-- The inner classification loop of `findCrashSignals`: walk the pattern
table in order, emit the first match and stop (`break`), or nothing. -/
def classifyWith : List CrashPattern → EventRecord → Option CrashSignal
  | [], _ => none
  | p :: ps, r => if patMatches r p then some (mkSignal r p) else classifyWith ps r

/-- Classification of one record against `CRASH_PATTERNS`. -/
def classifyRecord (r : EventRecord) : Option CrashSignal :=
  classifyWith CRASH_PATTERNS r

/-! ### The multi-channel scan of `findCrashSignals`

The log-source collaborator (`queryEvents`, which spawns PowerShell) is
abstracted as an oracle `query : String → Except Unit (List EventRecord)`;
the `try { ... } catch { /* skip channel */ }` block around it swallows a
per-channel failure.  `new Date(s).getTime()` on the record timestamps is
abstracted as `getTime : String → Int`.  The final
`crashes.sort((a, b) => timeB - timeA)` is the ECMAScript stable sort with
a newest-first comparator, modelled by `List.mergeSort` with
`getTime b ≤ getTime a`. -/

/-- The signals one channel contributes: none on a source failure,
otherwise every returned record's classification, in source order. -/
def channelSignals (query : String → Except Unit (List EventRecord))
    (ch : String) : List CrashSignal :=
  match query ch with
  | .error _ => []
  | .ok events => events.filterMap classifyRecord

/-- The accumulation loop of `findCrashSignals`: per channel, first
`validateChannel` (outside the `try`, so its failure aborts the scan),
then the swallowed source query and the classification pushes. -/
def scanChannels (query : String → Except Unit (List EventRecord)) :
    List String → Except ChannelError (List CrashSignal)
  | [] => .ok []
  | ch :: rest =>
    match validateChannel (.strV ch) with
    | .error e => .error e
    | .ok _ =>
      match scanChannels query rest with
      | .error e => .error e
      | .ok more => .ok (channelSignals query ch ++ more)

/-- The newest-first comparator: `a` may precede `b` when
`getTime b ≤ getTime a`. -/
def newestFirst (getTime : String → Int) (a b : CrashSignal) : Bool :=
  getTime b.event.timeCreated ≤ getTime a.event.timeCreated

/-- Function `findCrashSignals`: accumulate the per-channel signals in channel
order, then stably sort newest-first. -/
def findCrashSignals (getTime : String → Int)
    (query : String → Except Unit (List EventRecord))
    (channels : List String) : Except ChannelError (List CrashSignal) :=
  (scanChannels query channels).map fun crashes =>
    crashes.mergeSort (newestFirst getTime)

/-- The pre-sort accumulation in scan order (channel order, then
per-channel source order). -/
def gatherSignals (query : String → Except Unit (List EventRecord))
    (channels : List String) : List CrashSignal :=
  channels.flatMap (channelSignals query)

/-! ## Spec-side definitions for refinement comparisons -/

/-- Modelled from the spec: the fixed severity mapping over pattern names —
system-level or hardware-level failures are Critical, application crashes
and service failures are High, everything else (hangs) Medium. -/
def specSeverity : CrashType → Severity
  | .SystemCrash => .Critical
  | .WHEA => .Critical
  | .ApplicationCrash => .High
  | .ServiceFailure => .High
  | .ApplicationHang => .Medium

/-- Modelled from the spec: a *strict* ISO-8601 timestamp check (the spec
calls the parser "a strict ISO-8601 parser"; no such parser exists in
`src`, which uses only the anchored shape regex `isoShape`).  Beyond the
shape, a strict check requires in-range components: month 1–12, day 1–31,
hour ≤ 23, minute ≤ 59, second ≤ 59. -/
def specStrictIso (s : String) : Bool :=
  match s.data with
  | a :: b :: c :: d :: '-' :: e :: f :: '-' :: g :: h :: 'T' ::
    i :: j :: ':' :: k :: l :: ':' :: m :: n :: _ =>
    a.isDigit && b.isDigit && c.isDigit && d.isDigit && e.isDigit &&
    f.isDigit && g.isDigit && h.isDigit && i.isDigit && j.isDigit &&
    k.isDigit && l.isDigit && m.isDigit && n.isDigit &&
    (let mo := 10 * (e.toNat - '0'.toNat) + (f.toNat - '0'.toNat)
     let da := 10 * (g.toNat - '0'.toNat) + (h.toNat - '0'.toNat)
     let ho := 10 * (i.toNat - '0'.toNat) + (j.toNat - '0'.toNat)
     let mi := 10 * (k.toNat - '0'.toNat) + (l.toNat - '0'.toNat)
     let se := 10 * (m.toNat - '0'.toNat) + (n.toNat - '0'.toNat)
     decide (1 ≤ mo) && decide (mo ≤ 12) && decide (1 ≤ da) &&
     decide (da ≤ 31) && decide (ho ≤ 23) && decide (mi ≤ 59) &&
     decide (se ≤ 59))
  | _ => false

/-! ## Properties of `jsTrim` -/

/-- A trimmed string starts with a non-whitespace character, so a second
leading trim does nothing. -/
theorem dropWhile_jsTrim (l : List Char) :
    (jsTrim l).dropWhile isJsSpace = jsTrim l := by
  cases hA : jsTrim l with
  | nil => rfl
  | cons a as =>
    have hhead : (jsTrim l).head? = some a := by rw [hA]; rfl
    have hlast :
        ((l.dropWhile isJsSpace).reverse.dropWhile isJsSpace).getLast? = some a := by
      have : ((l.dropWhile isJsSpace).reverse.dropWhile isJsSpace).reverse.head?
          = some a := hhead
      simpa using this
    have hm : (l.dropWhile isJsSpace).head? = some a := by
      have hsuf : List.IsSuffix
          (List.dropWhile isJsSpace (l.dropWhile isJsSpace).reverse)
          (l.dropWhile isJsSpace).reverse := List.dropWhile_suffix isJsSpace
      obtain ⟨t, ht⟩ := hsuf
      have h2 : (l.dropWhile isJsSpace).reverse.getLast? = some a := by
        rw [← ht, List.getLast?_append, hlast]
        rfl
      simpa using h2
    have hws : isJsSpace a = false := by
      have h3 := List.head?_dropWhile_not isJsSpace l
      rw [hm] at h3
      simpa using h3
    rw [List.dropWhile_cons, hws]
    simp

/-- Trimming twice equals trimming once: `jsTrim` is idempotent. -/
theorem jsTrim_idem (l : List Char) : jsTrim (jsTrim l) = jsTrim l := by
  show (((jsTrim l).dropWhile isJsSpace).reverse.dropWhile isJsSpace).reverse
      = jsTrim l
  rw [dropWhile_jsTrim]
  show List.rdropWhile isJsSpace (jsTrim l) = jsTrim l
  rw [show jsTrim l
      = List.rdropWhile isJsSpace (l.dropWhile isJsSpace) from rfl]
  exact List.rdropWhile_idempotent _ _

/-- No blocked pattern matches the empty string. -/
theorem blockedViolations_nil : blockedViolations [] = [] := rfl

/-! ## C3: accepted filters are returned unchanged, and validation is
idempotent -/

/-- Unfolding lemma: when every check passes, `validateXPathStr` returns
the trimmed input. -/
theorem validateXPathStr_ok (s : String) (c : Config)
    (h1 : jsTrim s.data ≠ [])
    (h2 : (jsTrim s.data).length ≤ c.xpathMaxLength)
    (h3 : blockedViolations (jsTrim s.data) = [])
    (h4 : allowedStructure (jsTrim s.data) = true)
    (h5 : (bracketScan (jsTrim s.data)).neg = false)
    (h6 : (bracketScan (jsTrim s.data)).depth = 0)
    (h7 : (bracketScan (jsTrim s.data)).maxSeen ≤ 5)
    (h8 : predicateCount (jsTrim s.data) ≤ 10) :
    validateXPathStr s c = .ok (some (String.mk (jsTrim s.data))) := by
  simp only [validateXPathStr]
  rw [if_neg (fun h => h1 (List.eq_nil_of_length_eq_zero h)),
    if_neg (by omega),
    if_neg (by rw [h3]; exact fun h => absurd h (by decide)),
    if_neg (by rw [h4]; exact fun h => absurd h (by decide)),
    if_neg (by rw [h5]; exact fun h => absurd h (by decide)),
    if_neg (by rw [h6]; exact fun h => h rfl),
    if_neg (by omega),
    if_neg (by omega)]

/-- C3: every well-formed filter (whitelisted characters only, no blocked
construct, balanced brackets with nesting depth ≤ 5, at most 10
predicates, trimmed length ≤ 500) is returned trimmed but otherwise
unchanged, and validating the returned string again yields the same
string. -/
theorem validateXPath_accepts_unchanged_idempotent (s : String)
    (h1 : jsTrim s.data ≠ [])
    (h2 : (jsTrim s.data).length ≤ 500)
    (h3 : blockedViolations (jsTrim s.data) = [])
    (h4 : allowedStructure (jsTrim s.data) = true)
    (h5 : (bracketScan (jsTrim s.data)).neg = false)
    (h6 : (bracketScan (jsTrim s.data)).depth = 0)
    (h7 : (bracketScan (jsTrim s.data)).maxSeen ≤ 5)
    (h8 : predicateCount (jsTrim s.data) ≤ 10) :
    validateXPath (.strV s) DEFAULT_CONFIG
      = .ok (some (String.mk (jsTrim s.data)))
    ∧ validateXPath (.strV (String.mk (jsTrim s.data))) DEFAULT_CONFIG
      = .ok (some (String.mk (jsTrim s.data))) := by
  have hidem : jsTrim (String.mk (jsTrim s.data)).data = jsTrim s.data := by
    show jsTrim (jsTrim s.data) = jsTrim s.data
    exact jsTrim_idem s.data
  constructor
  · exact validateXPathStr_ok s DEFAULT_CONFIG h1 h2 h3 h4 h5 h6 h7 h8
  · have h := validateXPathStr_ok (String.mk (jsTrim s.data)) DEFAULT_CONFIG
      (by rw [hidem]; exact h1) (by rw [hidem]; exact h2)
      (by rw [hidem]; exact h3) (by rw [hidem]; exact h4)
      (by rw [hidem]; exact h5) (by rw [hidem]; exact h6)
      (by rw [hidem]; exact h7) (by rw [hidem]; exact h8)
    rw [hidem] at h
    exact h

/-- Witness for C3 at a concrete filter with surrounding whitespace. -/
theorem validateXPath_accepts_unchanged_idempotent_witness :
    validateXPath (.strV "  *[System[EventID=1000]] ") DEFAULT_CONFIG
      = .ok (some "*[System[EventID=1000]]")
    ∧ validateXPath (.strV "*[System[EventID=1000]]") DEFAULT_CONFIG
      = .ok (some "*[System[EventID=1000]]") := by
  have h := validateXPath_accepts_unchanged_idempotent "  *[System[EventID=1000]] "
    (by decide) (by decide) (by decide) (by decide)
    (by decide) (by decide) (by decide) (by decide)
  exact ⟨h.1.trans (by decide), h.2.trans (by decide)⟩

/-! ## C1: filters containing a blocked construct -/

/-- C1 (amended): a filter string whose trimmed form is within the length
limit and matches at least one blocked pattern is rejected with
`XPathValidationError` carrying one `Blocked pattern: …` message per
matching rule, whatever else the string contains. -/
theorem validateXPath_blocked_rejected (s : String) (c : Config)
    (hlen : (jsTrim s.data).length ≤ c.xpathMaxLength)
    (hblk : blockedViolations (jsTrim s.data) ≠ []) :
    validateXPath (.strV s) c
      = .error (.validation "XPath contains blocked constructs"
          (blockedViolations (jsTrim s.data))) := by
  have h1 : jsTrim s.data ≠ [] := by
    intro h
    rw [h, blockedViolations_nil] at hblk
    exact hblk rfl
  simp only [validateXPath, validateXPathStr]
  rw [if_neg (fun h => h1 (List.eq_nil_of_length_eq_zero h)),
    if_neg (by omega),
    if_pos (List.length_pos.mpr hblk)]

/-- Witness for C1 at a filter containing a `document(` call. -/
theorem validateXPath_blocked_rejected_witness :
    validateXPath (.strV "*[System[EventID=1]] document(a)") DEFAULT_CONFIG
      = .error (.validation "XPath contains blocked constructs"
          ["Blocked pattern: \\bdocument\\s*\\("]) := by
  have h := validateXPath_blocked_rejected "*[System[EventID=1]] document(a)"
    DEFAULT_CONFIG (by decide) (by decide)
  exact h.trans (by decide)

set_option maxRecDepth 100000 in
/-- Counterexample to C1 as stated: a 501-character filter containing a
blocked `document(` construct is rejected as `XPathComplexityError`
(length), not as `FilterRejected` with the matched rules — the length
check precedes the blocklist scan. -/
theorem validateXPath_blocked_long_complexity :
    blockedViolations
        (jsTrim ("document(".data ++ List.replicate 492 'a')) ≠ []
    ∧ validateXPath
        (.strV (String.mk ("document(".data ++ List.replicate 492 'a')))
        DEFAULT_CONFIG
      = .error (.complexity "XPath exceeds maximum length of 500 characters") :=
  ⟨by decide, by decide⟩

/-! ## C4: complexity boundaries and bracket balance -/

/-- C4: nesting depth 5 is accepted and depth 6 rejected as too complex;
10 predicates are accepted and 11 rejected as too complex; and whenever
the bracket scan of a filter that passes the earlier checks goes negative
or ends at a nonzero depth, the filter is rejected as unbalanced. -/
theorem validateXPath_complexity_boundaries :
    validateXPathStr "*[a[b[c[d[e]]]]]" DEFAULT_CONFIG
      = .ok (some "*[a[b[c[d[e]]]]]")
    ∧ validateXPathStr "*[a[b[c[d[e[f]]]]]]" DEFAULT_CONFIG
      = .error (.complexity "XPath exceeds maximum nesting depth of 5")
    ∧ validateXPathStr "*[a][b][c][d][e][f][g][h][i][j]" DEFAULT_CONFIG
      = .ok (some "*[a][b][c][d][e][f][g][h][i][j]")
    ∧ validateXPathStr "*[a][b][c][d][e][f][g][h][i][j][k]" DEFAULT_CONFIG
      = .error (.complexity "XPath exceeds maximum predicate count of 10")
    ∧ ∀ (s : String) (c : Config),
        (jsTrim s.data).length ≤ c.xpathMaxLength →
        blockedViolations (jsTrim s.data) = [] →
        allowedStructure (jsTrim s.data) = true →
        ((bracketScan (jsTrim s.data)).neg = true
          ∨ (bracketScan (jsTrim s.data)).depth ≠ 0) →
        validateXPath (.strV s) c
          = .error (.validation "Unbalanced brackets in XPath" []) := by
  refine ⟨by decide, by decide, by decide, by decide, ?_⟩
  intro s c hlen hblk hall hbad
  have h1 : jsTrim s.data ≠ [] := by
    intro h
    rw [h] at hall
    exact absurd hall (by decide)
  simp only [validateXPath, validateXPathStr]
  rw [if_neg (fun h => h1 (List.eq_nil_of_length_eq_zero h)),
    if_neg (by omega),
    if_neg (by rw [hblk]; exact fun h => absurd h (by decide)),
    if_neg (by rw [hall]; exact fun h => absurd h (by decide))]
  by_cases hneg : (bracketScan (jsTrim s.data)).neg = true
  · rw [if_pos hneg]
  · rw [if_neg hneg]
    rcases hbad with h | h
    · exact absurd h hneg
    · rw [if_pos h]

/-- Witness for the universal part of C4: a lone `]` drives the depth
negative and is rejected as unbalanced. -/
theorem validateXPath_complexity_boundaries_witness :
    validateXPath (.strV "]") DEFAULT_CONFIG
      = .error (.validation "Unbalanced brackets in XPath" []) :=
  validateXPath_complexity_boundaries.2.2.2.2 "]" DEFAULT_CONFIG
    (by decide) (by decide) (by decide) (Or.inl (by decide))

/-! ## C5: classification -/

/-- The classification loop returns the first matching pattern of the
table. -/
theorem classifyWith_eq_find (ps : List CrashPattern) (r : EventRecord) :
    classifyWith ps r = (ps.find? (fun p => patMatches r p)).map (mkSignal r) := by
  induction ps with
  | nil => rfl
  | cons p ps ih =>
    by_cases h : patMatches r p
    · simp [classifyWith, List.find?_cons_of_pos, h]
    · simp only [Bool.not_eq_true] at h
      simp [classifyWith, List.find?_cons_of_neg, h, ih]

/-- C5: the pattern table is iterated in declaration order
(ApplicationCrash, ApplicationHang, SystemCrash, ServiceFailure, WHEA);
a record is classified as the first matching pattern only, as nothing if
no pattern matches; the produced signal carries the fixed severity of its
pattern name and the two case-insensitive faulting-field extractions from
the message, which yield no field when absent. -/
theorem classifyRecord_first_match (r : EventRecord) :
    CRASH_PATTERNS.map (fun p => p.crashType)
      = [.ApplicationCrash, .ApplicationHang, .SystemCrash, .ServiceFailure, .WHEA]
    ∧ classifyRecord r
        = (CRASH_PATTERNS.find? (fun p => patMatches r p)).map (mkSignal r)
    ∧ (classifyRecord r = none ↔ ∀ p ∈ CRASH_PATTERNS, patMatches r p = false)
    ∧ (∀ sig, classifyRecord r = some sig →
        sig.severity = specSeverity sig.crashType
        ∧ sig.faultingApplication
            = extractField "Faulting application name:" r.message
        ∧ sig.faultingModule = extractField "Faulting module name:" r.message) := by
  have hsev : ∀ ct, assignSeverity ct = specSeverity ct := by
    intro ct; cases ct <;> rfl
  have hfind := classifyWith_eq_find CRASH_PATTERNS r
  refine ⟨by decide, hfind, ?_, ?_⟩
  · rw [show classifyRecord r = classifyWith CRASH_PATTERNS r from rfl, hfind]
    constructor
    · intro h
      have h2 : CRASH_PATTERNS.find? (fun p => patMatches r p) = none := by
        cases hf : CRASH_PATTERNS.find? (fun p => patMatches r p) with
        | none => rfl
        | some p => rw [hf] at h; cases h
      intro p hp
      have := List.find?_eq_none.mp h2 p hp
      simpa using this
    · intro h
      have h2 : CRASH_PATTERNS.find? (fun p => patMatches r p) = none :=
        List.find?_eq_none.mpr (fun p hp => by simp [h p hp])
      rw [h2]
      rfl
  · intro sig hsig
    rw [show classifyRecord r = classifyWith CRASH_PATTERNS r from rfl, hfind] at hsig
    cases hf : CRASH_PATTERNS.find? (fun p => patMatches r p) with
    | none => rw [hf] at hsig; cases hsig
    | some p =>
      rw [hf] at hsig
      injection hsig with hsig
      subst hsig
      exact ⟨hsev p.crashType, rfl, rfl⟩

/-- Witness for C5: an `Application Error`/1000 record with a faulting
application in its message classifies as an ApplicationCrash of severity
High with the application name extracted and no module. -/
theorem classifyRecord_first_match_witness :
    classifyRecord
      { recordId := 7, eventId := 1000, level := .Error, timeCreated := "t1"
        provider := "Application Error", computer := "pc", channel := "Application"
        message := "Faulting application name: notepad.exe, version: 1.0" }
      = some
        { event :=
            { recordId := 7, eventId := 1000, level := .Error, timeCreated := "t1"
              provider := "Application Error", computer := "pc"
              channel := "Application"
              message := "Faulting application name: notepad.exe, version: 1.0" }
          crashType := .ApplicationCrash
          severity := .High
          faultingApplication := some "notepad.exe"
          faultingModule := none }
    ∧ Severity.High = specSeverity .ApplicationCrash := by
  constructor
  · decide
  · have h := (classifyRecord_first_match
      { recordId := 7, eventId := 1000, level := .Error, timeCreated := "t1"
        provider := "Application Error", computer := "pc", channel := "Application"
        message := "Faulting application name: notepad.exe, version: 1.0" }).2.2.2
      { event :=
          { recordId := 7, eventId := 1000, level := .Error, timeCreated := "t1"
            provider := "Application Error", computer := "pc"
            channel := "Application"
            message := "Faulting application name: notepad.exe, version: 1.0" }
        crashType := .ApplicationCrash
        severity := .High
        faultingApplication := some "notepad.exe"
        faultingModule := none } (by decide)
    exact h.1

/-! ## C6: per-channel failure isolation and newest-first stable sort -/

/-- A successful scan accumulates exactly the per-channel signals in scan
order. -/
theorem scanChannels_ok (query : String → Except Unit (List EventRecord)) :
    ∀ (channels : List String) (l : List CrashSignal),
      scanChannels query channels = .ok l → l = gatherSignals query channels := by
  intro channels
  induction channels with
  | nil =>
    intro l h
    injection h with h
    rw [← h]
    rfl
  | cons ch rest ih =>
    intro l h
    simp only [scanChannels] at h
    cases hv : validateChannel (.strV ch) with
    | error e => simp only [hv] at h; exact Except.noConfusion h
    | ok c =>
      simp only [hv] at h
      cases hr : scanChannels query rest with
      | error e => simp only [hr] at h; exact Except.noConfusion h
      | ok more =>
        simp only [hr] at h
        injection h with h
        rw [← h, gatherSignals, List.flatMap_cons, ih more hr]
        rfl

/-- The transitivity of the newest-first comparator. -/
theorem newestFirst_trans (getTime : String → Int) :
    ∀ a b c : CrashSignal, newestFirst getTime a b → newestFirst getTime b c →
      newestFirst getTime a c := by
  intro a b c hab hbc
  simp only [newestFirst, decide_eq_true_eq] at *
  omega

/-- The totality of the newest-first comparator. -/
theorem newestFirst_total (getTime : String → Int) :
    ∀ a b : CrashSignal, newestFirst getTime a b || newestFirst getTime b a := by
  intro a b
  simp only [newestFirst, Bool.or_eq_true, decide_eq_true_eq]
  omega

/-- C6: (a) a source failure on one channel is swallowed — the scan result
is the same as if that channel had returned no events, so the other
channels' signals are still returned; (b) a successful scan result is
sorted newest-first by event timestamp, is a permutation of the signals
accumulated in scan order, and within each timestamp tie class preserves
the scan order exactly (stability: channel order, then per-channel source
order). -/
theorem findCrashSignals_isolated_sorted :
    (∀ (getTime : String → Int) (query : String → Except Unit (List EventRecord))
        (channels : List String) (bad : String) (e : Unit),
      query bad = .error e →
      findCrashSignals getTime query channels
        = findCrashSignals getTime
            (fun ch => if ch = bad then .ok [] else query ch) channels)
    ∧ (∀ (getTime : String → Int) (query : String → Except Unit (List EventRecord))
        (channels : List String) (sigs : List CrashSignal),
      findCrashSignals getTime query channels = .ok sigs →
      sigs.Pairwise
          (fun a b => getTime b.event.timeCreated ≤ getTime a.event.timeCreated)
        ∧ sigs.Perm (gatherSignals query channels)
        ∧ ∀ t : Int,
            sigs.filter (fun sg => decide (getTime sg.event.timeCreated = t))
              = (gatherSignals query channels).filter
                  (fun sg => decide (getTime sg.event.timeCreated = t))) := by
  constructor
  · intro getTime query channels bad e he
    have hchan : ∀ ch, channelSignals query ch
        = channelSignals (fun ch => if ch = bad then .ok [] else query ch) ch := by
      intro ch
      by_cases hb : ch = bad
      · subst hb
        simp [channelSignals, he]
      · simp [channelSignals, hb]
    have hscan : ∀ cs, scanChannels query cs
        = scanChannels (fun ch => if ch = bad then .ok [] else query ch) cs := by
      intro cs
      induction cs with
      | nil => rfl
      | cons ch rest ih =>
        simp only [scanChannels, hchan ch, ih]
    rw [findCrashSignals, findCrashSignals, hscan]
  · intro getTime query channels sigs hok
    cases hscan : scanChannels query channels with
    | error e => rw [findCrashSignals, hscan] at hok; cases hok
    | ok crashes =>
      rw [findCrashSignals, hscan] at hok
      simp only [Except.map] at hok
      injection hok with hok
      have hgather : crashes = gatherSignals query channels :=
        scanChannels_ok query channels crashes hscan
      subst hok
      refine ⟨?_, ?_, ?_⟩
      · have hs := List.sorted_mergeSort
          (newestFirst_trans getTime) (newestFirst_total getTime) crashes
        exact hs.imp (fun h => by
          simpa [newestFirst, decide_eq_true_eq] using h)
      · rw [← hgather]
        exact List.mergeSort_perm crashes (newestFirst getTime)
      · intro t
        rw [← hgather]
        set p : CrashSignal → Bool :=
          fun sg => decide (getTime sg.event.timeCreated = t) with hp
        have hperm : List.Perm
            ((crashes.mergeSort (newestFirst getTime)).filter p)
            (crashes.filter p) :=
          (List.mergeSort_perm crashes (newestFirst getTime)).filter p
        have hpair : (crashes.filter p).Pairwise
            (fun a b => newestFirst getTime a b = true) := by
          apply List.pairwise_of_forall_mem_list
          intro a ha b hb
          have ha' : getTime a.event.timeCreated = t :=
            by simpa [hp] using (List.mem_filter.mp ha).2
          have hb' : getTime b.event.timeCreated = t :=
            by simpa [hp] using (List.mem_filter.mp hb).2
          simp [newestFirst, ha', hb']
        have hsub : List.Sublist (crashes.filter p)
            ((crashes.mergeSort (newestFirst getTime)).filter p) := by
          have h1 : List.Sublist (crashes.filter p)
              (crashes.mergeSort (newestFirst getTime)) :=
            List.sublist_mergeSort (newestFirst_trans getTime)
              (newestFirst_total getTime) hpair (List.filter_sublist crashes)
          have h2 := h1.filter p
          rwa [List.filter_filter, show (fun a => p a && p a) = p from by
            funext a; cases hpa : p a <;> simp [hpa]] at h2
        exact (hsub.eq_of_length (hperm.length_eq.symm)).symm

/-- Witness for C6: with the System channel failing at the source and the
Application channel holding one crash event, the scan still returns the
Application signal, and equals the scan with System replaced by an empty
result. -/
theorem findCrashSignals_isolated_sorted_witness :
    (findCrashSignals (fun _ => 0)
        (fun ch => if ch = "System" then .error () else .ok
          [{ recordId := 7, eventId := 1000, level := .Error, timeCreated := "t1"
             provider := "Application Error", computer := "pc"
             channel := "Application"
             message := "m" }])
        ["System", "Application"]
      = findCrashSignals (fun _ => 0)
          (fun ch => if ch = "System" then .ok []
            else if ch = "System" then .error () else .ok
              [{ recordId := 7, eventId := 1000, level := .Error, timeCreated := "t1"
                 provider := "Application Error", computer := "pc"
                 channel := "Application"
                 message := "m" }])
          ["System", "Application"])
    ∧ List.Pairwise
        (fun a b : CrashSignal => (fun _ : String => (0 : Int)) b.event.timeCreated
          ≤ (fun _ : String => (0 : Int)) a.event.timeCreated)
        [{ event :=
             { recordId := 7, eventId := 1000, level := .Error, timeCreated := "t1"
               provider := "Application Error", computer := "pc"
               channel := "Application", message := "m" }
           crashType := .ApplicationCrash
           severity := .High
           faultingApplication := none
           faultingModule := none }] := by
  constructor
  · exact findCrashSignals_isolated_sorted.1 (fun _ => 0)
      (fun ch => if ch = "System" then .error () else .ok
        [{ recordId := 7, eventId := 1000, level := .Error, timeCreated := "t1"
           provider := "Application Error", computer := "pc"
           channel := "Application"
           message := "m" }])
      ["System", "Application"] "System" () (by decide)
  · have h := (findCrashSignals_isolated_sorted.2 (fun _ => 0)
      (fun ch => if ch = "System" then .error () else .ok
        [{ recordId := 7, eventId := 1000, level := .Error, timeCreated := "t1"
           provider := "Application Error", computer := "pc"
           channel := "Application"
           message := "m" }])
      ["System", "Application"]
      [{ event :=
           { recordId := 7, eventId := 1000, level := .Error, timeCreated := "t1"
             provider := "Application Error", computer := "pc"
             channel := "Application", message := "m" }
         crashType := .ApplicationCrash
         severity := .High
         faultingApplication := none
         faultingModule := none }]
      (by
        rw [findCrashSignals, show scanChannels
          (fun ch => if ch = "System" then .error () else .ok
            [{ recordId := 7, eventId := 1000, level := .Error, timeCreated := "t1"
               provider := "Application Error", computer := "pc"
               channel := "Application"
               message := "m" }])
          ["System", "Application"] = .ok
          [{ event :=
               { recordId := 7, eventId := 1000, level := .Error
                 timeCreated := "t1"
                 provider := "Application Error", computer := "pc"
                 channel := "Application", message := "m" }
             crashType := .ApplicationCrash
             severity := .High
             faultingApplication := none
             faultingModule := none }] from by decide]
        simp [Except.map, List.mergeSort_singleton]))
    exact h.1

/-! ## C7: the result-cap clamp -/

/-- C7: `clampMaxEvents` computes `max(1, min(requested ?? 100, maxCap))`
whenever the configured cap is at least 1 (the `Config` contract states a
1–1000 range), and in particular clamps 0 up to 1, clamps 999999 down to
the configured cap, and defaults to 100 when absent. -/
theorem clampMaxEvents_spec :
    (∀ (requested : Option Int) (c : Config), 1 ≤ c.maxEventsPerQuery →
      clampMaxEvents requested c
        = max 1 (min (requested.getD 100) c.maxEventsPerQuery))
    ∧ clampMaxEvents (some 0) DEFAULT_CONFIG = 1
    ∧ clampMaxEvents (some 999999) DEFAULT_CONFIG
        = DEFAULT_CONFIG.maxEventsPerQuery
    ∧ clampMaxEvents none DEFAULT_CONFIG = 100 := by
  refine ⟨?_, by decide, by decide, by decide⟩
  intro requested c h
  unfold clampMaxEvents
  omega

/-- Witness for C7 at a concrete in-range request. -/
theorem clampMaxEvents_spec_witness :
    clampMaxEvents (some 5000) DEFAULT_CONFIG
      = max 1 (min ((some (5000 : Int)).getD 100)
          DEFAULT_CONFIG.maxEventsPerQuery) :=
  clampMaxEvents_spec.1 (some 5000) DEFAULT_CONFIG (by decide)

/-! ## C8: timestamp validation in the query window -/

/-- C8 (amended): `buildTimeRangeXPath` fails exactly when a supplied
nonempty timestamp fails the anchored shape check
`\d{4}-\d{2}-\d{2}T\d{2}:\d{2}:\d{2}`, and it enforces no ordering
between start and end: an end instant chronologically before the start is
accepted. -/
theorem buildTimeRangeXPath_shape_exact :
    (∀ st et : Option String,
      (∃ err, buildTimeRangeXPath st et = .error err) ↔
        ((∃ s, st = some s ∧ s ≠ "" ∧ isoShape s.data = false)
          ∨ (∃ s, et = some s ∧ s ≠ "" ∧ isoShape s.data = false)))
    ∧ buildTimeRangeXPath (some "2024-06-01T00:00:00")
        (some "2020-01-01T00:00:00")
      = .ok (some ("*[System[TimeCreated[@SystemTime>='2024-06-01T00:00:00']" ++
          " and TimeCreated[@SystemTime<='2020-01-01T00:00:00']]]")) := by
  constructor
  · intro st et
    have hcase : ∀ (o : Option String),
        (∃ s, o = some s ∧ s ≠ "" ∧ isoShape s.data = false)
          ↔ (match o with
              | some s => s ≠ "" ∧ isoShape s.data = false
              | none => False) := by
      intro o
      cases o with
      | none => simp
      | some s => simp
    rcases st with _ | s <;> rcases et with _ | e <;>
      simp only [buildTimeRangeXPath, hcase]
    · simp
    · by_cases he0 : e = ""
      · simp [he0]
      · by_cases hes : isoShape e.data
        · rw [if_neg he0, if_pos hes]
          simp [he0, hes]
        · rw [if_neg he0, if_neg hes]
          simp only [Bool.not_eq_true] at hes
          simp [he0, hes]
    · by_cases hs0 : s = ""
      · simp [hs0]
      · by_cases hss : isoShape s.data
        · rw [if_neg hs0, if_pos hss]
          simp [hs0, hss]
        · rw [if_neg hs0, if_neg hss]
          simp only [Bool.not_eq_true] at hss
          simp [hs0, hss]
    · by_cases hs0 : s = ""
      · simp only [hs0, if_pos rfl]
        by_cases he0 : e = ""
        · simp [he0, hs0]
        · by_cases hes : isoShape e.data
          · rw [if_neg he0, if_pos hes]
            simp [he0, hes, hs0]
          · rw [if_neg he0, if_neg hes]
            simp only [Bool.not_eq_true] at hes
            simp [he0, hes, hs0]
      · by_cases hss : isoShape s.data
        · rw [if_neg hs0, if_pos hss]
          by_cases he0 : e = ""
          · simp [he0, hs0, hss]
          · by_cases hes : isoShape e.data
            · rw [if_neg he0, if_pos hes]
              simp [he0, hes, hs0, hss]
            · rw [if_neg he0, if_neg hes]
              simp only [Bool.not_eq_true] at hes
              simp [he0, hes, hs0, hss]
        · rw [if_neg hs0, if_neg hss]
          simp only [Bool.not_eq_true] at hss
          simp [hs0, hss]
  · decide

/-- Counterexample to C8 as stated: a timestamp with month 13, day 40,
hour 25 is not a valid ISO-8601 timestamp, yet it matches the shape regex
and is accepted without error. -/
theorem buildTimeRangeXPath_accepts_invalid_iso :
    specStrictIso "2024-13-40T25:61:61" = false
    ∧ buildTimeRangeXPath (some "2024-13-40T25:61:61") none
      = .ok (some "*[System[TimeCreated[@SystemTime>='2024-13-40T25:61:61']]]") :=
  ⟨by decide, by decide⟩

/-! ## C9: the lookback window and the ambient clock -/

/-- C9 (amended): for a fixed ambient `Date.now()` reading the prepared
scan start is a pure function of that instant, the requested hours and
the limits, namely `now − max(1, min(hours ?? 24, maxTimeRangeHours)) ·
3600000` ms (using the spec's clamp pattern, valid whenever the
configured maximum is at least 1). -/
theorem scanPreparedStart_pure (nowMs : Int) (requested : Option Int)
    (c : Config) (h : 1 ≤ c.maxTimeRangeHours) :
    scanPreparedStart nowMs requested c
      = nowMs - max 1 (min (requested.getD 24) c.maxTimeRangeHours) * 3600000 := by
  have h2 : clampHours requested c
      = max 1 (min (requested.getD 24) c.maxTimeRangeHours) := by
    unfold clampHours
    omega
  rw [scanPreparedStart, h2]

/-- Witness for C9's amended statement at a concrete instant. -/
theorem scanPreparedStart_pure_witness :
    scanPreparedStart 1700000000000 (some 48) DEFAULT_CONFIG
      = 1700000000000
        - max 1 (min ((some (48 : Int)).getD 24)
            DEFAULT_CONFIG.maxTimeRangeHours) * 3600000 :=
  scanPreparedStart_pure 1700000000000 (some 48) DEFAULT_CONFIG (by decide)

/-- Counterexample to C9 as stated: `findCrashSignals` reads `Date.now()`
itself, so two runs with identical caller inputs (hours = 24, default
limits) but different ambient clock readings prepare different query
start instants — the prepared query is not determined by the caller's
inputs alone. -/
theorem scanPreparedStart_ambient_clock_dependence :
    scanPreparedStart 0 (some 24) DEFAULT_CONFIG
      ≠ scanPreparedStart 3600000 (some 24) DEFAULT_CONFIG := by
  decide

/-! ## C10: `combineXPathFilters` keeps only the first filter -/

/-- C10: `combineXPathFilters` returns the head of the defined nonempty
filters — with none it returns no filter, with one it returns it, and
with two or more it returns the first and discards the rest (no AND
conjunction is built). -/
theorem combineXPathFilters_first_only :
    (∀ filters : List (Option String),
      combineXPathFilters filters
        = (filters.filterMap (fun f =>
            match f with
            | some s => if s.length > 0 then some s else none
            | none => none)).head?)
    ∧ combineXPathFilters [some "a", some "b"] = some "a"
    ∧ combineXPathFilters [] = none
    ∧ combineXPathFilters [none, some "", some "c", some "d"] = some "c" := by
  refine ⟨?_, by decide, by decide, by decide⟩
  intro filters
  unfold combineXPathFilters
  cases filters.filterMap (fun f =>
      match f with
      | some s => if s.length > 0 then some s else none
      | none => none) with
  | nil => rfl
  | cons x t => cases t <;> rfl

end Winlog
